import Mathlib

/-!
Verification of the health-status classification core of the healthApp
repository: the analysis service (per-metric evaluation, overall
classification, explanation tiers) and the monitoring service (alert
policy, history ledger, authentication guards), shallowly embedded as
executable Lean definitions over rational-valued vital signs.
-/

/-- Severity levels, transcribed from the HealthStatus union type in
HealthAnalysisService. -/
inductive HealthStatus where
  | normal
  | warning
  | critical
deriving DecidableEq, Repr

/-- Numeric severity rank used by both services (the severity maps in
isMorSevere and checkForAlerts): normal 0, warning 1, critical 2. -/
def severityRank : HealthStatus → Nat
  | .normal => 0
  | .warning => 1
  | .critical => 2

/-- isMorSevere from HealthAnalysisService: strict comparison of severity
ranks. -/
def isMorSevere (s1 s2 : HealthStatus) : Bool :=
  severityRank s1 > severityRank s2

/-- Severity maximum under the total order normal < warning < critical.
This is the specification-side combinator the Classifier claims reduce to. -/
def maxStatus (a b : HealthStatus) : HealthStatus :=
  if severityRank b ≤ severityRank a then a else b

/-- One vital-sign reading (HealthData in HealthAnalysisService); values are
modelled as rationals. -/
structure HealthData where
  heartRate : ℚ
  bloodPressureSystolic : ℚ
  bloodPressureDiastolic : ℚ
  oxygenLevel : ℚ
  temperature : ℚ

/-- A min/max band, as used by NORMAL_RANGES and CRITICAL_THRESHOLDS. -/
structure ValueRange where
  min : ℚ
  max : ℚ

/-- The five per-metric bands of a range table in HealthAnalysisService. -/
structure RangeTable where
  heartRate : ValueRange
  bloodPressureSystolic : ValueRange
  bloodPressureDiastolic : ValueRange
  oxygenLevel : ValueRange
  temperature : ValueRange

/-- NORMAL_RANGES table from HealthAnalysisService. -/
def NORMAL_RANGES : RangeTable :=
  { heartRate := ⟨60, 100⟩
    bloodPressureSystolic := ⟨90, 129⟩
    bloodPressureDiastolic := ⟨60, 84⟩
    oxygenLevel := ⟨95, 100⟩
    temperature := ⟨36.1, 37.2⟩ }

/-- CRITICAL_THRESHOLDS table from HealthAnalysisService. -/
def CRITICAL_THRESHOLDS : RangeTable :=
  { heartRate := ⟨40, 140⟩
    bloodPressureSystolic := ⟨70, 180⟩
    bloodPressureDiastolic := ⟨40, 120⟩
    oxygenLevel := ⟨90, 100⟩
    temperature := ⟨35, 38.5⟩ }

/-- getMetricStatus from HealthAnalysisService: normal when inside the
normal band, critical when outside the critical band, warning otherwise. -/
def getMetricStatus (value : ℚ) (normalRange criticalRange : ValueRange) :
    HealthStatus :=
  if normalRange.min ≤ value ∧ value ≤ normalRange.max then .normal
  else if value < criticalRange.min ∨ value > criticalRange.max then .critical
  else .warning

/-- The five per-metric assessments of analyzeIndividualMetrics, in source
order (heart rate, systolic, diastolic, oxygen, temperature). -/
def metricStatuses (d : HealthData) : List HealthStatus :=
  [ getMetricStatus d.heartRate NORMAL_RANGES.heartRate
      CRITICAL_THRESHOLDS.heartRate,
    getMetricStatus d.bloodPressureSystolic NORMAL_RANGES.bloodPressureSystolic
      CRITICAL_THRESHOLDS.bloodPressureSystolic,
    getMetricStatus d.bloodPressureDiastolic
      NORMAL_RANGES.bloodPressureDiastolic
      CRITICAL_THRESHOLDS.bloodPressureDiastolic,
    getMetricStatus d.oxygenLevel NORMAL_RANGES.oxygenLevel
      CRITICAL_THRESHOLDS.oxygenLevel,
    getMetricStatus d.temperature NORMAL_RANGES.temperature
      CRITICAL_THRESHOLDS.temperature ]

/-- getWorstMetricStatus from HealthAnalysisService: critical if any metric
is critical, else warning if any metric is warning, else normal. -/
def getWorstMetricStatus (l : List HealthStatus) : HealthStatus :=
  if l.any (fun s => decide (s = HealthStatus.critical)) then .critical
  else if l.any (fun s => decide (s = HealthStatus.warning)) then .warning
  else .normal

/-- mapPredictionToStatus from HealthAnalysisService: 0 normal, 1 warning,
2 critical, anything else defaults to normal. -/
def mapPredictionToStatus (prediction : Int) : HealthStatus :=
  if prediction = 0 then .normal
  else if prediction = 1 then .warning
  else if prediction = 2 then .critical
  else .normal

/-- The SVM call in analyzeHealthData: prediction starts at 0; a successful
predict overwrites it, a thrown error is caught and leaves it at 0. The
argument is none when the model call throws. -/
def predictionValue : Option Int → Int
  | some k => k
  | none => 0

/-- Overall-status computation of analyzeHealthData: critical individual
metrics dominate, otherwise the SVM vote is overridden by the worst
individual metric when that is more severe. -/
def analyzeStatus (d : HealthData) (svmResult : Option Int) : HealthStatus :=
  let statuses := metricStatuses d
  if statuses.any (fun s => decide (s = HealthStatus.critical)) then .critical
  else
    let status := mapPredictionToStatus (predictionValue svmResult)
    let worstIndividualStatus := getWorstMetricStatus statuses
    if isMorSevere worstIndividualStatus status then worstIndividualStatus
    else status

/-- The six blood-pressure sentence tiers of generateAnalysisMessage. -/
inductive BpTier where
  | hypertensiveCrisis
  | stage2
  | stage1
  | elevated
  | hypotensive
  | normal
deriving DecidableEq, Repr

/-- The three heart-rate sentence tiers of generateAnalysisMessage. -/
inductive HrTier where
  | tachycardia
  | bradycardia
  | normal
deriving DecidableEq, Repr

/-- The four temperature sentence tiers of generateAnalysisMessage. -/
inductive TempTier where
  | significantFever
  | mildFever
  | hypothermiaRange
  | normal
deriving DecidableEq, Repr

/-- The three oxygen sentence tiers of generateAnalysisMessage. -/
inductive O2Tier where
  | criticalHypoxemia
  | low
  | normal
deriving DecidableEq, Repr

/-- Blood-pressure sentence selection, transcribed from the if-chain in
generateAnalysisMessage (HealthAnalysisService). -/
def bpTier (bpSystolic bpDiastolic : ℚ) : BpTier :=
  if bpSystolic ≥ 180 ∨ bpDiastolic ≥ 120 then .hypertensiveCrisis
  else if bpSystolic ≥ 160 ∨ bpDiastolic ≥ 100 then .stage2
  else if bpSystolic ≥ 140 ∨ bpDiastolic ≥ 90 then .stage1
  else if bpSystolic ≥ 130 ∨ bpDiastolic ≥ 85 then .elevated
  else if bpSystolic < 90 ∨ bpDiastolic < 60 then .hypotensive
  else .normal

/-- Heart-rate sentence selection, transcribed from generateAnalysisMessage. -/
def hrTier (hr : ℚ) : HrTier :=
  if hr > 100 then .tachycardia
  else if hr < 60 then .bradycardia
  else .normal

/-- Temperature sentence selection, transcribed from
generateAnalysisMessage. -/
def tempTier (temp : ℚ) : TempTier :=
  if temp ≥ 38.3 then .significantFever
  else if temp ≥ 37.3 then .mildFever
  else if temp ≤ 35.5 then .hypothermiaRange
  else .normal

/-- Oxygen sentence selection, transcribed from generateAnalysisMessage. -/
def o2Tier (o2 : ℚ) : O2Tier :=
  if o2 < 90 then .criticalHypoxemia
  else if o2 < 95 then .low
  else .normal

/-- Blood-pressure tiers as the specification words them: 6 tiers tested in
order — crisis at systolic ≥ 180 or diastolic ≥ 120, stage 2 at ≥ 160 or
≥ 100, stage 1 at ≥ 140 or ≥ 90, elevated at ≥ 130 or ≥ 85, hypotensive at
systolic < 90 or diastolic < 60, else normal. -/
def spec_bpTier (sys dia : ℚ) : BpTier :=
  if sys ≥ 180 ∨ dia ≥ 120 then .hypertensiveCrisis
  else if sys ≥ 160 ∨ dia ≥ 100 then .stage2
  else if sys ≥ 140 ∨ dia ≥ 90 then .stage1
  else if sys ≥ 130 ∨ dia ≥ 85 then .elevated
  else if sys < 90 ∨ dia < 60 then .hypotensive
  else .normal

/-- Heart-rate tiers as the specification words them: above 100 tachycardia,
below 60 bradycardia, else normal. -/
def spec_hrTier (hr : ℚ) : HrTier :=
  if hr > 100 then .tachycardia
  else if hr < 60 then .bradycardia
  else .normal

/-- Temperature tiers as the specification words them: at least 38.3
significant fever, at least 37.3 mild fever, at most 35.5 hypothermia range,
else normal. -/
def spec_tempTier (temp : ℚ) : TempTier :=
  if temp ≥ 38.3 then .significantFever
  else if temp ≥ 37.3 then .mildFever
  else if temp ≤ 35.5 then .hypothermiaRange
  else .normal

/-- Oxygen tiers as the specification words them: below 90 critical
hypoxemia, below 95 low, else normal. -/
def spec_o2Tier (o2 : ℚ) : O2Tier :=
  if o2 < 90 then .criticalHypoxemia
  else if o2 < 95 then .low
  else .normal

/-- Monitoring schedule options (HealthMonitoringService). -/
inductive MonitoringSchedule where
  | hourly
  | daily
  | weekly
  | monthly
deriving DecidableEq, Repr

/-- Per-metric enable flags of the monitoring configuration. -/
structure MetricFlags where
  heartRate : Bool
  bloodPressure : Bool
  temperature : Bool
  oxygenLevel : Bool
  weight : Bool
deriving DecidableEq, Repr

/-- HealthMonitoringConfig from HealthMonitoringService. -/
structure HealthMonitoringConfig where
  isActive : Bool
  schedule : MonitoringSchedule
  alertThreshold : HealthStatus
  metrics : MetricFlags
deriving DecidableEq, Repr

/-- The default configuration installed by the service constructor: active,
daily, threshold warning, all metrics but weight enabled. -/
def defaultConfig : HealthMonitoringConfig :=
  { isActive := true
    schedule := .daily
    alertThreshold := .warning
    metrics :=
      { heartRate := true
        bloodPressure := true
        temperature := true
        oxygenLevel := true
        weight := false } }

/-- getMetricStatus from HealthMonitoringService (distinct from the analysis
service one): outside the band, the relative deviation from the nearer bound
decides between warning and critical at the 0.15 mark. -/
def monitorMetricStatus (value min max : ℚ) : HealthStatus :=
  if value < min ∨ value > max then
    let minDev := |value - min| / min
    let maxDev := |value - max| / max
    let deviation := Max.max minDev maxDev
    if deviation > 0.15 then .critical else .warning
  else .normal

/-- One entry of the metrics map attached to an alert. -/
structure AlertMetricEntry where
  name : String
  value : ℚ
  status : HealthStatus

/-- The metrics map assembled in checkForAlerts, honoring the per-metric
enable flags, in source order. -/
def alertMetrics (cfg : HealthMonitoringConfig) (d : HealthData) :
    List AlertMetricEntry :=
  (if cfg.metrics.heartRate then
    [⟨"heartRate", d.heartRate, monitorMetricStatus d.heartRate 60 100⟩]
   else []) ++
  (if cfg.metrics.bloodPressure then
    [⟨"bloodPressureSystolic", d.bloodPressureSystolic,
        monitorMetricStatus d.bloodPressureSystolic 90 120⟩,
     ⟨"bloodPressureDiastolic", d.bloodPressureDiastolic,
        monitorMetricStatus d.bloodPressureDiastolic 60 80⟩]
   else []) ++
  (if cfg.metrics.temperature then
    [⟨"temperature", d.temperature,
        monitorMetricStatus d.temperature 36.1 37.2⟩]
   else []) ++
  (if cfg.metrics.oxygenLevel then
    [⟨"oxygenLevel", d.oxygenLevel,
        monitorMetricStatus d.oxygenLevel 95 100⟩]
   else [])

/-- generateAlertMessage from HealthMonitoringService. -/
def generateAlertMessage (status : HealthStatus) : String :=
  match status with
  | .critical =>
      "URGENT: Your health metrics have reached critical levels. Please consult a healthcare provider immediately."
  | .warning =>
      "ATTENTION: Some of your health metrics need attention. Consider consulting a healthcare provider."
  | .normal =>
      "Your health metrics are within normal ranges, but close monitoring is recommended."

/-- HealthAlert from HealthMonitoringService; id and timestamp both come
from the clock at raise-time, modelled as a Nat passed by the caller. -/
structure HealthAlert where
  id : Nat
  timestamp : Nat
  status : HealthStatus
  message : String
  metrics : List AlertMetricEntry
  seen : Bool

/-- The alert record built by checkForAlerts. -/
def newAlert (now : Nat) (cfg : HealthMonitoringConfig) (d : HealthData)
    (status : HealthStatus) : HealthAlert :=
  { id := now
    timestamp := now
    status := status
    message := generateAlertMessage status
    metrics := alertMetrics cfg d
    seen := false }

/-- One entry of the health history ledger. -/
structure HistoryEntry where
  data : HealthData
  timestamp : Nat
  status : HealthStatus

/-- The in-memory state of HealthMonitoringService: configuration, history
ledger, alert log, and the session user id. -/
structure MonitorState where
  monitoringConfig : HealthMonitoringConfig
  healthHistory : List HistoryEntry
  alerts : List HealthAlert
  userId : Option String

/-- checkForAlerts from HealthMonitoringService: does nothing when
monitoring is inactive or the severity is below the threshold; otherwise
pushes exactly one new alert. -/
def checkForAlerts (now : Nat) (d : HealthData) (status : HealthStatus)
    (s : MonitorState) : MonitorState :=
  if s.monitoringConfig.isActive = false then s
  else if severityRank status ≥ severityRank s.monitoringConfig.alertThreshold
  then { s with alerts := s.alerts ++ [newAlert now s.monitoringConfig d status] }
  else s

/-- saveHealthData from HealthMonitoringService: throws when no user id is
set or the session is not authenticated (before touching any state), else
appends one history entry and runs the alert check. The authentication
collaborator result is passed in as isAuthenticated. -/
def saveHealthData (isAuthenticated : Bool) (now : Nat) (d : HealthData)
    (status : HealthStatus) (s : MonitorState) : Except String MonitorState :=
  if s.userId = none ∨ isAuthenticated = false then
    .error "Authentication required to save health data"
  else
    let s1 := { s with healthHistory := s.healthHistory ++ [⟨d, now, status⟩] }
    .ok (checkForAlerts now d status s1)

/-- getHealthHistory from HealthMonitoringService: empty when
unauthenticated, else a copy of the ledger in insertion order. -/
def getHealthHistory (isAuthenticated : Bool) (s : MonitorState) :
    List HistoryEntry :=
  if s.userId = none ∨ isAuthenticated = false then []
  else s.healthHistory

/-- getAlerts from HealthMonitoringService: empty when unauthenticated,
else a copy of the alert log. -/
def getAlerts (isAuthenticated : Bool) (s : MonitorState) :
    List HealthAlert :=
  if s.userId = none ∨ isAuthenticated = false then []
  else s.alerts

/-- getUnreadAlertsCount from HealthMonitoringService: counts unseen alerts
with no authentication check at all. -/
def getUnreadAlertsCount (s : MonitorState) : Nat :=
  (s.alerts.filter (fun alert => !alert.seen)).length

/-- Marks the first alert with the given id as seen (findIndex followed by
an in-place update in the source). -/
def markFirstSeen (alertId : Nat) : List HealthAlert → List HealthAlert
  | [] => []
  | alert :: rest =>
      if alert.id = alertId then { alert with seen := true } :: rest
      else alert :: markFirstSeen alertId rest

/-- markAlertAsSeen from HealthMonitoringService. -/
def markAlertAsSeen (alertId : Nat) (s : MonitorState) : MonitorState :=
  { s with alerts := markFirstSeen alertId s.alerts }

/-- markAllAlertsAsSeen from HealthMonitoringService. -/
def markAllAlertsAsSeen (s : MonitorState) : MonitorState :=
  { s with alerts := s.alerts.map (fun alert => { alert with seen := true }) }

/-- updateMonitoringConfig from HealthMonitoringService; the spread-merge of
a partial configuration is covered by quantifying over the resulting full
configuration. -/
def updateMonitoringConfig (cfg : HealthMonitoringConfig) (s : MonitorState) :
    MonitorState :=
  { s with monitoringConfig := cfg }

/-- clearUserData from HealthMonitoringService: the logout path resets the
user id, the history ledger and the alert log. -/
def clearUserData (s : MonitorState) : MonitorState :=
  { s with userId := none, healthHistory := [], alerts := [] }

/-- The state-mutating public operations of HealthMonitoringService other
than clearUserData and the storage reload in setUserId (the read-only
operations getHealthHistory, getAlerts, getUnreadAlertsCount and
getMonitoringConfig do not change the state). -/
inductive MonitorOp where
  | save (isAuthenticated : Bool) (now : Nat) (d : HealthData)
      (status : HealthStatus)
  | markSeen (alertId : Nat)
  | markAllSeen
  | setConfig (cfg : HealthMonitoringConfig)

/-- Applies one public operation; a save that throws leaves the caller with
the prior state. -/
def applyOp (op : MonitorOp) (s : MonitorState) : MonitorState :=
  match op with
  | .save isAuthenticated now d status =>
      match saveHealthData isAuthenticated now d status s with
      | .ok s2 => s2
      | .error _ => s
  | .markSeen alertId => markAlertAsSeen alertId s
  | .markAllSeen => markAllAlertsAsSeen s
  | .setConfig cfg => updateMonitoringConfig cfg s

/-- Applies a sequence of public operations in order. -/
def applyOps (ops : List MonitorOp) (s : MonitorState) : MonitorState :=
  ops.foldl (fun st op => applyOp op st) s

/-- Repeated alert insertion: n successive calls of checkForAlerts with the
same reading and severity (ticks 0, 1, ...). -/
def insertAlerts (d : HealthData) (status : HealthStatus) :
    Nat → MonitorState → MonitorState
  | 0, s => s
  | Nat.succ k, s => insertAlerts d status k (checkForAlerts k d status s)

/-- A reading whose heart rate 150 is individually critical (above 140)
while every other vital is in its normal band. -/
def criticalReading : HealthData :=
  { heartRate := 150
    bloodPressureSystolic := 110
    bloodPressureDiastolic := 70
    oxygenLevel := 97
    temperature := 36.6 }

/-- The end-to-end reading of the specification: heart rate 120, blood
pressure 160/100, oxygen 91, temperature 38.2. -/
def endToEndReading : HealthData :=
  { heartRate := 120
    bloodPressureSystolic := 160
    bloodPressureDiastolic := 100
    oxygenLevel := 91
    temperature := 38.2 }

/-- An authenticated monitoring state with the default configuration and
empty collections. -/
def authState : MonitorState :=
  { monitoringConfig := defaultConfig
    healthHistory := []
    alerts := []
    userId := some "user-1" }

/-- An unauthenticated state (no user id) that nevertheless holds one
history entry and one unseen alert. -/
def staleState : MonitorState :=
  { monitoringConfig := defaultConfig
    healthHistory := [⟨criticalReading, 5, .critical⟩]
    alerts := [newAlert 5 defaultConfig criticalReading .critical]
    userId := none }

theorem worst_eq_critical_iff (l : List HealthStatus) :
    getWorstMetricStatus l = .critical ↔
      l.any (fun s => decide (s = HealthStatus.critical)) = true := by
  unfold getWorstMetricStatus
  split_ifs with h1 h2 <;> simp_all

theorem maxStatus_rank_left (a b : HealthStatus) :
    severityRank a ≤ severityRank (maxStatus a b) := by
  cases a <;> cases b <;> decide

theorem maxStatus_critical_left (b : HealthStatus) :
    maxStatus .critical b = .critical := by
  cases b <;> rfl

theorem analyze_core (l : List HealthStatus) (v : HealthStatus) :
    (if l.any (fun s => decide (s = HealthStatus.critical)) then
        HealthStatus.critical
     else if isMorSevere (getWorstMetricStatus l) v then getWorstMetricStatus l
     else v)
    = maxStatus (getWorstMetricStatus l) v := by
  cases hb : l.any (fun s => decide (s = HealthStatus.critical)) with
  | true =>
      have hw : getWorstMetricStatus l = .critical :=
        (worst_eq_critical_iff l).mpr hb
      rw [hw]
      cases v <;> simp [hb, maxStatus, severityRank]
  | false =>
      have hw : getWorstMetricStatus l ≠ .critical := by
        intro hc
        have h2 := (worst_eq_critical_iff l).mp hc
        simp [hb] at h2
      cases hW : getWorstMetricStatus l with
      | critical => exact absurd hW hw
      | normal =>
          cases v <;> simp [hb, hW, maxStatus, isMorSevere, severityRank]
      | warning =>
          cases v <;> simp [hb, hW, maxStatus, isMorSevere, severityRank]

/-- C1: the Classifier's overall severity is the severity maximum of the
worst individual metric assessment and the learned-model vote; a thrown
model call leaves the vote at normal; the result is never weaker than the
worst individual metric; and any individually critical metric forces an
overall critical result regardless of the vote. -/
theorem c1_classifier_overall_max (d : HealthData) (svmResult : Option Int) :
    analyzeStatus d svmResult =
      maxStatus (getWorstMetricStatus (metricStatuses d))
        (mapPredictionToStatus (predictionValue svmResult)) ∧
    mapPredictionToStatus (predictionValue none) = .normal ∧
    severityRank (getWorstMetricStatus (metricStatuses d)) ≤
      severityRank (analyzeStatus d svmResult) ∧
    ((metricStatuses d).any (fun s => decide (s = HealthStatus.critical)) =
        true →
      analyzeStatus d svmResult = .critical) := by
  have hcore : analyzeStatus d svmResult =
      maxStatus (getWorstMetricStatus (metricStatuses d))
        (mapPredictionToStatus (predictionValue svmResult)) := by
    unfold analyzeStatus
    exact analyze_core (metricStatuses d)
      (mapPredictionToStatus (predictionValue svmResult))
  refine ⟨hcore, rfl, ?_, ?_⟩
  · rw [hcore]
    exact maxStatus_rank_left _ _
  · intro h
    rw [hcore, (worst_eq_critical_iff _).mpr h, maxStatus_critical_left]

theorem getMetricStatus_cases (v : ℚ) (n c : ValueRange)
    (hmin : c.min ≤ n.min) (hmax : n.max ≤ c.max) :
    (getMetricStatus v n c = .normal ↔ n.min ≤ v ∧ v ≤ n.max) ∧
    (getMetricStatus v n c = .critical ↔ v < c.min ∨ v > c.max) ∧
    (getMetricStatus v n c = .warning ↔
      ¬(n.min ≤ v ∧ v ≤ n.max) ∧ ¬(v < c.min ∨ v > c.max)) := by
  unfold getMetricStatus
  split_ifs with h1 h2
  · have hnc : ¬(v < c.min ∨ v > c.max) := by
      push_neg
      exact ⟨by linarith [h1.1], by linarith [h1.2]⟩
    exact ⟨by simp [h1], by simp [hnc], by simp [h1]⟩
  · exact ⟨by simp [h1], by simp [h2], by simp [h2]⟩
  · exact ⟨by simp [h1], by simp [h2], by simp [h1, h2]⟩

/-- C2 (amended): the Metric Evaluator with the default bands returns
normal iff the value is inside the normal band (inclusive), critical iff the
value is outside the critical band (for oxygen: below 90 or above 100, not
only below 90), and warning otherwise; it is total over the rationals. -/
theorem c2_metric_bands (v : ℚ) :
    ((getMetricStatus v NORMAL_RANGES.heartRate CRITICAL_THRESHOLDS.heartRate
        = .normal ↔ 60 ≤ v ∧ v ≤ 100) ∧
     (getMetricStatus v NORMAL_RANGES.heartRate CRITICAL_THRESHOLDS.heartRate
        = .critical ↔ v < 40 ∨ v > 140) ∧
     (getMetricStatus v NORMAL_RANGES.heartRate CRITICAL_THRESHOLDS.heartRate
        = .warning ↔ ¬(60 ≤ v ∧ v ≤ 100) ∧ ¬(v < 40 ∨ v > 140))) ∧
    ((getMetricStatus v NORMAL_RANGES.bloodPressureSystolic
        CRITICAL_THRESHOLDS.bloodPressureSystolic
        = .normal ↔ 90 ≤ v ∧ v ≤ 129) ∧
     (getMetricStatus v NORMAL_RANGES.bloodPressureSystolic
        CRITICAL_THRESHOLDS.bloodPressureSystolic
        = .critical ↔ v < 70 ∨ v > 180) ∧
     (getMetricStatus v NORMAL_RANGES.bloodPressureSystolic
        CRITICAL_THRESHOLDS.bloodPressureSystolic
        = .warning ↔ ¬(90 ≤ v ∧ v ≤ 129) ∧ ¬(v < 70 ∨ v > 180))) ∧
    ((getMetricStatus v NORMAL_RANGES.bloodPressureDiastolic
        CRITICAL_THRESHOLDS.bloodPressureDiastolic
        = .normal ↔ 60 ≤ v ∧ v ≤ 84) ∧
     (getMetricStatus v NORMAL_RANGES.bloodPressureDiastolic
        CRITICAL_THRESHOLDS.bloodPressureDiastolic
        = .critical ↔ v < 40 ∨ v > 120) ∧
     (getMetricStatus v NORMAL_RANGES.bloodPressureDiastolic
        CRITICAL_THRESHOLDS.bloodPressureDiastolic
        = .warning ↔ ¬(60 ≤ v ∧ v ≤ 84) ∧ ¬(v < 40 ∨ v > 120))) ∧
    ((getMetricStatus v NORMAL_RANGES.oxygenLevel
        CRITICAL_THRESHOLDS.oxygenLevel
        = .normal ↔ 95 ≤ v ∧ v ≤ 100) ∧
     (getMetricStatus v NORMAL_RANGES.oxygenLevel
        CRITICAL_THRESHOLDS.oxygenLevel
        = .critical ↔ v < 90 ∨ v > 100) ∧
     (getMetricStatus v NORMAL_RANGES.oxygenLevel
        CRITICAL_THRESHOLDS.oxygenLevel
        = .warning ↔ ¬(95 ≤ v ∧ v ≤ 100) ∧ ¬(v < 90 ∨ v > 100))) ∧
    ((getMetricStatus v NORMAL_RANGES.temperature
        CRITICAL_THRESHOLDS.temperature
        = .normal ↔ 36.1 ≤ v ∧ v ≤ 37.2) ∧
     (getMetricStatus v NORMAL_RANGES.temperature
        CRITICAL_THRESHOLDS.temperature
        = .critical ↔ v < 35 ∨ v > 38.5) ∧
     (getMetricStatus v NORMAL_RANGES.temperature
        CRITICAL_THRESHOLDS.temperature
        = .warning ↔ ¬(36.1 ≤ v ∧ v ≤ 37.2) ∧ ¬(v < 35 ∨ v > 38.5))) := by
  have hhr := getMetricStatus_cases v NORMAL_RANGES.heartRate
    CRITICAL_THRESHOLDS.heartRate (by norm_num [NORMAL_RANGES,
      CRITICAL_THRESHOLDS]) (by norm_num [NORMAL_RANGES, CRITICAL_THRESHOLDS])
  have hsys := getMetricStatus_cases v NORMAL_RANGES.bloodPressureSystolic
    CRITICAL_THRESHOLDS.bloodPressureSystolic (by norm_num [NORMAL_RANGES,
      CRITICAL_THRESHOLDS]) (by norm_num [NORMAL_RANGES, CRITICAL_THRESHOLDS])
  have hdia := getMetricStatus_cases v NORMAL_RANGES.bloodPressureDiastolic
    CRITICAL_THRESHOLDS.bloodPressureDiastolic (by norm_num [NORMAL_RANGES,
      CRITICAL_THRESHOLDS]) (by norm_num [NORMAL_RANGES, CRITICAL_THRESHOLDS])
  have ho2 := getMetricStatus_cases v NORMAL_RANGES.oxygenLevel
    CRITICAL_THRESHOLDS.oxygenLevel (by norm_num [NORMAL_RANGES,
      CRITICAL_THRESHOLDS]) (by norm_num [NORMAL_RANGES, CRITICAL_THRESHOLDS])
  have htmp := getMetricStatus_cases v NORMAL_RANGES.temperature
    CRITICAL_THRESHOLDS.temperature (by norm_num [NORMAL_RANGES,
      CRITICAL_THRESHOLDS]) (by norm_num [NORMAL_RANGES, CRITICAL_THRESHOLDS])
  exact ⟨hhr, hsys, hdia, ho2, htmp⟩

/-- C2 counterexample: oxygen saturation 101 is classified critical by the
Metric Evaluator although it is not below 90, refuting the claim that for
oxygen critical arises only below 90. -/
theorem c2_oxygen_counterexample :
    getMetricStatus 101 NORMAL_RANGES.oxygenLevel
      CRITICAL_THRESHOLDS.oxygenLevel = .critical ∧
    ¬ ((101 : ℚ) < 90) := by
  constructor
  · decide
  · norm_num

theorem c1_classifier_overall_max_witness :
    ((metricStatuses criticalReading).any
        (fun s => decide (s = HealthStatus.critical)) = true) ∧
    analyzeStatus criticalReading (some 0) = .critical :=
  ⟨by decide, (c1_classifier_overall_max criticalReading (some 0)).2.2.2
    (by decide)⟩

/-- C8: the explanation generator selects its per-metric sentence by
exactly the documented branch thresholds, tested in the documented order:
the transcription of generateAnalysisMessage coincides with the tier
functions written from the specification text. -/
theorem c8_explanation_tiers (sys dia hr temp o2 : ℚ) :
    bpTier sys dia = spec_bpTier sys dia ∧
    hrTier hr = spec_hrTier hr ∧
    tempTier temp = spec_tempTier temp ∧
    o2Tier o2 = spec_o2Tier o2 :=
  ⟨rfl, rfl, rfl, rfl⟩

/-- C4: with no user id set or an unauthenticated session, saveHealthData
raises the authorization error before touching any state, so the caller
keeps the prior state: no history entry is appended and no alert is
created. -/
theorem c4_unauthenticated_save (isAuthenticated : Bool) (now : Nat)
    (d : HealthData) (status : HealthStatus) (s : MonitorState)
    (h : s.userId = none ∨ isAuthenticated = false) :
    saveHealthData isAuthenticated now d status s =
      .error "Authentication required to save health data" ∧
    applyOp (.save isAuthenticated now d status) s = s := by
  have herr : saveHealthData isAuthenticated now d status s =
      .error "Authentication required to save health data" := by
    unfold saveHealthData
    rw [if_pos h]
  exact ⟨herr, by simp [applyOp, herr]⟩

theorem c4_unauthenticated_save_witness :
    (staleState.userId = none ∨ true = false) ∧
    (saveHealthData true 7 criticalReading .critical staleState =
      .error "Authentication required to save health data" ∧
     applyOp (.save true 7 criticalReading .critical) staleState =
       staleState) :=
  ⟨Or.inl rfl,
   c4_unauthenticated_save true 7 criticalReading .critical staleState
     (Or.inl rfl)⟩

/-- C7: with no user id set or an unauthenticated session, getHealthHistory
and getAlerts return empty collections instead of raising, exposing none of
the stored entries. -/
theorem c7_unauthenticated_reads (isAuthenticated : Bool) (s : MonitorState)
    (h : s.userId = none ∨ isAuthenticated = false) :
    getHealthHistory isAuthenticated s = [] ∧
    getAlerts isAuthenticated s = [] := by
  unfold getHealthHistory getAlerts
  rw [if_pos h, if_pos h]
  exact ⟨rfl, rfl⟩

theorem c7_unauthenticated_reads_witness :
    (staleState.userId = none ∨ true = false) ∧
    staleState.healthHistory ≠ [] ∧
    staleState.alerts ≠ [] ∧
    (getHealthHistory true staleState = [] ∧
     getAlerts true staleState = []) :=
  ⟨Or.inl rfl, by simp [staleState], by simp [staleState],
   c7_unauthenticated_reads true staleState (Or.inl rfl)⟩

theorem filter_not_seen (l : List HealthAlert) :
    l.filter (fun alert => !alert.seen) =
      l.filter (fun alert => decide (alert.seen = false)) := by
  induction l with
  | nil => rfl
  | cons a rest ih => cases ha : a.seen <;> simp [List.filter, ha, ih]

/-- C10: getUnreadAlertsCount counts the stored alerts whose seen flag is
false and performs no authentication check — its value is the same for
every user-id component of the state, including the unauthenticated one in
which getAlerts returns the empty collection. -/
theorem c10_unread_count_no_auth (s : MonitorState) (isAuthenticated : Bool)
    (uid : Option String) :
    getUnreadAlertsCount { s with userId := uid } =
      (s.alerts.filter (fun alert => alert.seen = false)).length ∧
    ((uid = none ∨ isAuthenticated = false) →
      getAlerts isAuthenticated { s with userId := uid } = []) := by
  constructor
  · show (s.alerts.filter (fun alert => !alert.seen)).length = _
    rw [filter_not_seen]
  · intro h
    unfold getAlerts
    rw [if_pos h]

theorem checkForAlerts_config (now : Nat) (d : HealthData)
    (status : HealthStatus) (s : MonitorState) :
    (checkForAlerts now d status s).monitoringConfig = s.monitoringConfig := by
  unfold checkForAlerts
  split_ifs <;> rfl

theorem checkForAlerts_history (now : Nat) (d : HealthData)
    (status : HealthStatus) (s : MonitorState) :
    (checkForAlerts now d status s).healthHistory = s.healthHistory := by
  unfold checkForAlerts
  split_ifs <;> rfl

theorem checkForAlerts_fires (now : Nat) (d : HealthData)
    (status : HealthStatus) (s : MonitorState)
    (hA : s.monitoringConfig.isActive = true)
    (hT : severityRank status ≥
      severityRank s.monitoringConfig.alertThreshold) :
    (checkForAlerts now d status s).alerts =
      s.alerts ++ [newAlert now s.monitoringConfig d status] := by
  unfold checkForAlerts
  rw [if_neg (by simp [hA]), if_pos hT]

theorem checkForAlerts_extends (now : Nat) (d : HealthData)
    (status : HealthStatus) (s : MonitorState) :
    (checkForAlerts now d status s).alerts = s.alerts ∨
    (checkForAlerts now d status s).alerts =
      s.alerts ++ [newAlert now s.monitoringConfig d status] := by
  unfold checkForAlerts
  split_ifs
  · exact Or.inl rfl
  · exact Or.inr rfl
  · exact Or.inl rfl

theorem insertAlerts_length (d : HealthData) (status : HealthStatus) :
    ∀ (n : Nat) (s : MonitorState),
      s.monitoringConfig.isActive = true →
      severityRank status ≥ severityRank s.monitoringConfig.alertThreshold →
      (insertAlerts d status n s).alerts.length = s.alerts.length + n := by
  intro n
  induction n with
  | zero => intro s _ _; rfl
  | succ k ih =>
      intro s hA hT
      show (insertAlerts d status k
        (checkForAlerts k d status s)).alerts.length = _
      rw [ih (checkForAlerts k d status s)
            (by rw [checkForAlerts_config]; exact hA)
            (by rw [checkForAlerts_config]; exact hT),
          checkForAlerts_fires k d status s hA hT]
      simp
      omega

/-- C3 (amended): with monitoring active and the new severity at or above
the threshold, every processed reading appends exactly one alert,
independent of all previous readings: a normal-to-warning transition raises
one alert, a warning-to-critical transition raises one alert, and an
immediately repeated identical critical reading (same severity, same
values) also raises one further alert — exact repetition is not
suppressed. -/
theorem c3_alert_per_save (now : Nat) (d : HealthData)
    (status : HealthStatus) (s : MonitorState)
    (hA : s.monitoringConfig.isActive = true)
    (hT : severityRank status ≥
      severityRank s.monitoringConfig.alertThreshold) :
    (checkForAlerts now d status s).alerts =
      s.alerts ++ [newAlert now s.monitoringConfig d status] ∧
    (checkForAlerts now d status s).alerts.length = s.alerts.length + 1 := by
  have h := checkForAlerts_fires now d status s hA hT
  exact ⟨h, by rw [h]; simp⟩

theorem c3_alert_per_save_witness :
    (authState.monitoringConfig.isActive = true) ∧
    (severityRank .critical ≥
      severityRank authState.monitoringConfig.alertThreshold) ∧
    (checkForAlerts 3 criticalReading .critical authState).alerts =
      authState.alerts ++
        [newAlert 3 authState.monitoringConfig criticalReading .critical] :=
  ⟨rfl, by decide,
   (c3_alert_per_save 3 criticalReading .critical authState rfl (by decide)).1⟩

/-- C3 counterexample: from the authenticated initial state, two
immediately successive saves of the identical critical reading produce two
alerts — the second, exactly repeated, critical reading is not
suppressed as the claim states. -/
theorem c3_duplicate_critical_counterexample :
    (applyOps [.save true 1 criticalReading .critical,
               .save true 2 criticalReading .critical]
      authState).alerts.length = 2 := by
  decide

/-- C5 (amended): alert insertion never trims the log: each insertion
leaves every existing entry in place, in order and unmodified, appending at
most one new entry at the end, and after n qualifying insertions the log
holds all n additional entries — the log is unbounded and can exceed 100
entries (the 100-entry retention in the source applies to the security log
of SecurityService, not to the health-alert log). -/
theorem c5_alert_log_untrimmed :
    (∀ (now : Nat) (d : HealthData) (status : HealthStatus)
        (s : MonitorState),
      (checkForAlerts now d status s).alerts = s.alerts ∨
      (checkForAlerts now d status s).alerts =
        s.alerts ++ [newAlert now s.monitoringConfig d status]) ∧
    (∀ (d : HealthData) (status : HealthStatus) (n : Nat)
        (s : MonitorState),
      s.monitoringConfig.isActive = true →
      severityRank status ≥ severityRank s.monitoringConfig.alertThreshold →
      (insertAlerts d status n s).alerts.length = s.alerts.length + n) :=
  ⟨checkForAlerts_extends,
   fun d status n s hA hT => insertAlerts_length d status n s hA hT⟩

theorem c5_alert_log_untrimmed_witness :
    (authState.monitoringConfig.isActive = true) ∧
    (severityRank .critical ≥
      severityRank authState.monitoringConfig.alertThreshold) ∧
    (insertAlerts criticalReading .critical 101 authState).alerts.length =
      authState.alerts.length + 101 :=
  ⟨rfl, by decide,
   c5_alert_log_untrimmed.2 criticalReading .critical 101 authState rfl
     (by decide)⟩

/-- C5 counterexample: after 101 qualifying insertions the alert log holds
101 entries, exceeding the claimed 100-entry retention bound. -/
theorem c5_trim_counterexample :
    (insertAlerts criticalReading .critical 101 authState).alerts.length =
      101 ∧ 101 > 100 := by
  constructor
  · have h := insertAlerts_length criticalReading .critical 101 authState rfl
      (by decide)
    simpa [authState] using h
  · norm_num

theorem applyOp_history_extends (op : MonitorOp) (s : MonitorState) :
    ∃ t, (applyOp op s).healthHistory = s.healthHistory ++ t := by
  cases op with
  | save isAuthenticated now d status =>
      simp only [applyOp, saveHealthData]
      split_ifs with h
      · exact ⟨[], by simp⟩
      · exact ⟨[⟨d, now, status⟩], by simp [checkForAlerts_history]⟩
  | markSeen alertId => exact ⟨[], by simp [applyOp, markAlertAsSeen]⟩
  | markAllSeen => exact ⟨[], by simp [applyOp, markAllAlertsAsSeen]⟩
  | setConfig cfg => exact ⟨[], by simp [applyOp, updateMonitoringConfig]⟩

theorem applyOps_history_extends (ops : List MonitorOp) :
    ∀ s : MonitorState,
      ∃ t, (applyOps ops s).healthHistory = s.healthHistory ++ t := by
  induction ops with
  | nil => intro s; exact ⟨[], by simp [applyOps]⟩
  | cons op rest ih =>
      intro s
      obtain ⟨t1, h1⟩ := applyOp_history_extends op s
      obtain ⟨t2, h2⟩ := ih (applyOp op s)
      refine ⟨t1 ++ t2, ?_⟩
      show (applyOps rest (applyOp op s)).healthHistory = _
      rw [h2, h1, List.append_assoc]

/-- C6 (amended): under every sequence of public operations other than the
logout reset clearUserData and the storage reload in setUserId, every
previously appended history entry is preserved unchanged in its original
position — the ledger only grows at the end; an authenticated
saveHealthData appends exactly one entry at the end; and an authenticated
getHealthHistory returns all entries in insertion order. clearUserData,
which deletes the whole ledger, must be excluded — see the
counterexample. -/
theorem c6_ledger_appendonly :
    (∀ (ops : List MonitorOp) (s : MonitorState),
      ∃ t, (applyOps ops s).healthHistory = s.healthHistory ++ t) ∧
    (∀ (now : Nat) (d : HealthData) (status : HealthStatus)
        (s : MonitorState),
      s.userId ≠ none →
      ∃ s2, saveHealthData true now d status s = .ok s2 ∧
        s2.healthHistory = s.healthHistory ++ [⟨d, now, status⟩]) ∧
    (∀ s : MonitorState, s.userId ≠ none →
      getHealthHistory true s = s.healthHistory) := by
  refine ⟨fun ops s => applyOps_history_extends ops s, ?_, ?_⟩
  · intro now d status s h
    refine ⟨checkForAlerts now d status
      { s with healthHistory := s.healthHistory ++ [⟨d, now, status⟩] },
      ?_, ?_⟩
    · unfold saveHealthData
      rw [if_neg]
      rintro (hc | hc)
      · exact h hc
      · simp at hc
    · rw [checkForAlerts_history]
  · intro s h
    unfold getHealthHistory
    rw [if_neg]
    rintro (hc | hc)
    · exact h hc
    · simp at hc

theorem c6_ledger_appendonly_witness :
    (authState.userId ≠ none) ∧
    (∃ s2, saveHealthData true 4 criticalReading .critical authState =
        .ok s2 ∧
      s2.healthHistory =
        authState.healthHistory ++ [⟨criticalReading, 4, .critical⟩]) ∧
    getHealthHistory true authState = authState.healthHistory :=
  ⟨by simp [authState],
   c6_ledger_appendonly.2.1 4 criticalReading .critical authState
     (by simp [authState]),
   c6_ledger_appendonly.2.2 authState (by simp [authState])⟩

/-- C6 counterexample: the public clearUserData operation erases a
previously appended history entry, refuting the claim that no public
operation of the monitoring service can remove entries. -/
theorem c6_clear_counterexample :
    staleState.healthHistory ≠ [] ∧
    (clearUserData staleState).healthHistory = [] := by
  constructor
  · simp [staleState]
  · rfl

theorem c10_unread_count_no_auth_witness :
    getUnreadAlertsCount { staleState with userId := none } =
      (staleState.alerts.filter (fun alert => alert.seen = false)).length ∧
    getAlerts true { staleState with userId := none } = [] :=
  ⟨(c10_unread_count_no_auth staleState true none).1,
   (c10_unread_count_no_auth staleState true none).2 (Or.inl rfl)⟩


/-- Supporting fact for the end-to-end reading 120 / 160-100 / 91 / 38.2:
none of the five metrics is individually critical (160 does not exceed 180,
91 is not below 90, 38.2 does not exceed 38.5), the worst individual
assessment is warning, the blood-pressure explanation tier is stage 2, and
the overall severity reduces to the severity maximum of warning and the
learned-model vote — so whether the pipeline reports critical at this
reading is decided entirely by the external SVM model. -/
theorem endToEndReading_reduction :
    getWorstMetricStatus (metricStatuses endToEndReading) = .warning ∧
    bpTier endToEndReading.bloodPressureSystolic
      endToEndReading.bloodPressureDiastolic = .stage2 ∧
    ∀ svmResult, analyzeStatus endToEndReading svmResult =
      maxStatus .warning (mapPredictionToStatus (predictionValue svmResult)) := by
  have hworst : getWorstMetricStatus (metricStatuses endToEndReading) =
      .warning := by
    norm_num [getWorstMetricStatus, metricStatuses, getMetricStatus,
      NORMAL_RANGES, CRITICAL_THRESHOLDS, endToEndReading]
    decide
  refine ⟨hworst, by norm_num [bpTier, endToEndReading], ?_⟩
  intro svmResult
  have hcore : analyzeStatus endToEndReading svmResult =
      maxStatus (getWorstMetricStatus (metricStatuses endToEndReading))
        (mapPredictionToStatus (predictionValue svmResult)) := by
    unfold analyzeStatus
    exact analyze_core (metricStatuses endToEndReading)
      (mapPredictionToStatus (predictionValue svmResult))
  rw [hcore, hworst]
